import Mathlib

/-!
Verification of the adaptive-lighting reading-to-brightness pipeline.

Shallow embedding of the core of the repository:
  - `src/models.py`   : table rows (sensors, leds, sensor_led_map, sensor_readings,
                        brightness_levels) become structures; the database becomes `DB`,
                        lists of rows in insertion order plus autoincrement counters.
  - `src/main.py`     : `calculate_level`, `persist_brightness`, `ingest_reading`.
  - `src/led_routers.py` : `led_history`.
  - `src/interfact.py`   : `fetch_latest_brightness` (embedded as `latestBrightness`).

Modelling conventions:
  - Timestamps are integers (UTC seconds); `timedelta(hours=h)` is `3600 * h`.
  - Machine integers of the source are unbounded `Int` (Python ints are unbounded).
  - A fallible commit is modelled by an explicit `commitOk : Bool` parameter injecting
    the storage outcome; a Python exception surfacing to the caller becomes `Except`.
  - `Numeric(5,2)` wattage is stored as an integer count of hundredths of a watt;
    no claim depends on wattage.
-/

/-- A row of the `sensors` table (src/models.py): id plus location label. -/
structure Sensor where
  id : Int
  location : String
deriving DecidableEq

/-- A row of the `leds` table (src/models.py): id plus wattage (hundredths of a watt). -/
structure Led where
  id : Int
  wattage : Int
deriving DecidableEq

/-- A row of the `sensor_readings` table (src/models.py). -/
structure SensorReading where
  id : Int
  sensor_id : Int
  lux : Int
  people : Bool
  ts : Int
deriving DecidableEq

/-- A row of the `brightness_levels` table (src/models.py). -/
structure BrightnessLevel where
  id : Int
  led_id : Int
  level : Int
  ts : Int
deriving DecidableEq

/-- The whole database state: one list of rows per table, rows in insertion order,
plus the autoincrement counters for the two append-only tables. `sensor_led_map`
is the association table of (sensor_id, led_id) pairs. -/
structure DB where
  sensors : List Sensor
  leds : List Led
  sensor_led_map : List (Int × Int)
  sensor_readings : List SensorReading
  brightness_levels : List BrightnessLevel
  next_reading_id : Int
  next_brightness_id : Int
deriving DecidableEq

/-- The request body of POST /readings (src/schemas.py, `SensorReadingIn`). -/
structure SensorReadingIn where
  sensor_id : Int
  lux : Int
  people : Bool
deriving DecidableEq

/-- The error taxonomy of the endpoints: 404 NotFound, 422 InvalidArgument
(FastAPI query validation), and a storage failure surfaced from a commit. -/
inductive ApiError
  | notFound
  | invalidArgument
  | storageError
deriving DecidableEq

/-- The Decision Engine, from `calculate_level` in src/main.py (lines 30-40):
occupancy check first, then the lux bands in the source's if-chain order. -/
def calculate_level (lux : Int) (people : Bool) : Int :=
  if !people then 0
  else if lux ≥ 600 then 10
  else if lux ≥ 400 then 40
  else if lux ≥ 200 then 70
  else 100

/-- The reference piecewise function, written from the spec's words (claim C1):
0 when unoccupied; otherwise 10 when lux ≥ 600, 40 when 400 ≤ lux < 600,
70 when 200 ≤ lux < 400, 100 when lux < 200. -/
def referenceLevel (lux : Int) (occupied : Bool) : Int :=
  if occupied = false then 0
  else if lux ≥ 600 then 10
  else if 400 ≤ lux ∧ lux < 600 then 40
  else if 200 ≤ lux ∧ lux < 400 then 70
  else 100

/-- The fixture-resolution query of `ingest_reading` (src/main.py lines 64-71):
join of `leds` with `sensor_led_map` on led id, filtered by sensor_id, selecting
the led ids. Modelled over the map rows, keeping only pairs whose led exists. -/
def ledIdsForSensor (db : DB) (sid : Int) : List Int :=
  ((db.sensor_led_map.filter (fun p => p.1 == sid)).filter
      (fun p => db.leds.any (fun l => l.id == p.2))).map (fun p => p.2)

/-- Append one brightness row, assigning the next autoincrement id
(the effect of one `db.add(models.BrightnessLevel(...))` made durable). -/
def DB.insertBrightness (db : DB) (led_id level ts : Int) : DB :=
  { db with
    brightness_levels :=
      db.brightness_levels ++ [⟨db.next_brightness_id, led_id, level, ts⟩],
    next_brightness_id := db.next_brightness_id + 1 }

/-- The rows a list of staged (led_id, level) pairs turns into at commit time,
ids assigned sequentially from `startId`, all stamped `ts`. -/
def stagedRows (startId ts : Int) : List (Int × Int) → List BrightnessLevel
  | [] => []
  | p :: rest => ⟨startId, p.1, p.2, ts⟩ :: stagedRows (startId + 1) ts rest

/-- Make every staged row durable, in order (the effect of the single `db.commit()`). -/
def commitPending (db : DB) (pending : List (Int × Int)) (ts : Int) : DB :=
  pending.foldl (fun d p => d.insertBrightness p.1 p.2 ts) db

/-- `persist_brightness` from src/main.py (lines 42-45): stage one
BrightnessLevel row per led id, all at the same level, then issue exactly one
commit. `commitOk` injects the storage outcome of that single commit: on failure
nothing staged becomes durable and the database is unchanged. -/
def persist_brightness (db : DB) (led_ids : List Int) (level ts : Int)
    (commitOk : Bool) : DB :=
  let pending := led_ids.map (fun lid => (lid, level))
  if commitOk then commitPending db pending ts else db

/-- The reading row built from a request body, with the next autoincrement id and
the ingestion-time default timestamp (src/models.py `ts` default). -/
def mkReading (db : DB) (data : SensorReadingIn) (now : Int) : SensorReading :=
  ⟨db.next_reading_id, data.sensor_id, data.lux, data.people, now⟩

/-- Store one raw reading row (the `db.add(reading); db.commit()` of step 1). -/
def DB.insertReading (db : DB) (data : SensorReadingIn) (now : Int) : DB :=
  { db with
    sensor_readings := db.sensor_readings ++ [mkReading db data now],
    next_reading_id := db.next_reading_id + 1 }

/-- The fan-out work scheduled with BackgroundTasks in `ingest_reading`:
the resolved led ids and the one level computed for the reading. -/
structure FanoutTask where
  led_ids : List Int
  level : Int
deriving DecidableEq

/-- `ingest_reading` up to the response (src/main.py lines 52-79): store the raw
reading (its commit outcome injected by `primaryOk`; a failure raises and aborts
the whole request before anything else happens), resolve the linked leds, invoke
the Decision Engine once, and schedule the fan-out task. Returns the persisted
reading (the response body), the database after the primary write, and the
scheduled task; the task has not run yet. `primaryOk` covers only the storage
outcome; the referential action of the sensor foreign key at this very commit
is modelled separately in `ingest_reading_fk` below. -/
def ingest_reading (db : DB) (data : SensorReadingIn) (now : Int)
    (primaryOk : Bool) : Except ApiError (SensorReading × DB × FanoutTask) :=
  if primaryOk then
    let reading := mkReading db data now
    let db1 := db.insertReading data now
    let led_ids := ledIdsForSensor db1 data.sensor_id
    let level := calculate_level data.lux data.people
    .ok (reading, db1, ⟨led_ids, level⟩)
  else .error .storageError

/-- Run the scheduled fan-out task (BackgroundTasks executes `persist_brightness`
after the response was sent); `commitOk` injects its commit outcome. -/
def runFanout (db : DB) (t : FanoutTask) (now : Int) (commitOk : Bool) : DB :=
  persist_brightness db t.led_ids t.level now commitOk

/-- One whole POST /readings request: the response the caller sees and the
database state after the background fan-out has run. A primary-write failure
surfaces as `storageError` and leaves the state untouched; the fan-out outcome
(`fanoutOk`) can no longer change the response. -/
def handleIngest (db : DB) (data : SensorReadingIn) (now : Int)
    (primaryOk fanoutOk : Bool) : Except ApiError SensorReading × DB :=
  match ingest_reading db data now primaryOk with
  | .error e => (.error e, db)
  | .ok (reading, db1, task) => (.ok reading, runFanout db1 task now fanoutOk)

/-- Does a sensor row with this id exist? This is the referential check the
database performs when committing a reading: src/models.py (line 29) declares a
foreign key from sensor_readings.sensor_id to sensors.id, and src/database.py
pins a MySQL backend, whose InnoDB tables enforce it at the commit. -/
def sensorExists (db : DB) (sid : Int) : Bool :=
  db.sensors.any (fun s => s.id == sid)

/-- `ingest_reading` with the sensor foreign key enforced: the primary commit of
src/main.py (line 61) succeeds only when storage is up and the referenced sensor
row exists; for an orphan reading the commit raises IntegrityError — surfaced as
a storage-level failure, never NotFound (the application code itself performs no
existence check) — and stores nothing. -/
def ingest_reading_fk (db : DB) (data : SensorReadingIn) (now : Int)
    (primaryOk : Bool) : Except ApiError (SensorReading × DB × FanoutTask) :=
  if primaryOk && sensorExists db data.sensor_id then
    .ok (mkReading db data now, db.insertReading data now,
      ⟨ledIdsForSensor (db.insertReading data now) data.sensor_id,
       calculate_level data.lux data.people⟩)
  else .error .storageError

/-- One whole POST /readings request with the sensor foreign key enforced. -/
def handleIngestFK (db : DB) (data : SensorReadingIn) (now : Int)
    (primaryOk fanoutOk : Bool) : Except ApiError SensorReading × DB :=
  match ingest_reading_fk db data now primaryOk with
  | .error e => (.error e, db)
  | .ok (reading, db1, task) => (.ok reading, runFanout db1 task now fanoutOk)

/-- Does a led row with this id exist (the guard query of src/led_routers.py line 45)? -/
def ledExists (db : DB) (led_id : Int) : Bool :=
  db.leds.any (fun l => l.id == led_id)

/-- The rows of the history window: brightness rows of the fixture with ts ≥ cutoff
(the filter of src/led_routers.py lines 34-39), in table order. -/
def windowRows (db : DB) (led_id cutoff : Int) : List BrightnessLevel :=
  db.brightness_levels.filter (fun r => r.led_id == led_id && decide (cutoff ≤ r.ts))

/-- GET /api/leds/LED/history from src/led_routers.py (lines 23-48): the `hours`
query parameter is validated to [1,168] (422 otherwise), cutoff is now minus
`hours` hours, the window rows are returned ordered by ts ascending, and a 404
is raised exactly when the result is empty and no led row with this id exists. -/
def led_history (db : DB) (led_id hours now : Int) :
    Except ApiError (List BrightnessLevel) :=
  if hours < 1 ∨ 168 < hours then .error .invalidArgument
  else
    let cutoff := now - 3600 * hours
    let rows := (windowRows db led_id cutoff).mergeSort
      (fun a b => decide (a.ts ≤ b.ts))
    if rows.isEmpty && !ledExists db led_id then .error .notFound
    else .ok rows

/-- Keep the later of an accumulated candidate row and the next row; on a tie the
accumulated (earlier-inserted) row is kept, matching a stable descending order. -/
def pickLater (acc : Option BrightnessLevel) (r : BrightnessLevel) :
    Option BrightnessLevel :=
  match acc with
  | none => some r
  | some b => if b.ts < r.ts then some r else some b

/-- `fetch_latest_brightness` from src/interfact.py (lines 19-29): the level of
the row with maximal ts among the fixture's rows, none when there are no rows.
SQL leaves the order of equal-ts rows unspecified; the model keeps the
earliest-inserted row among ties. -/
def latestBrightness (db : DB) (led_id : Int) : Option Int :=
  ((db.brightness_levels.filter (fun r => r.led_id == led_id)).foldl
      pickLater none).map (fun r => r.level)

/-- Modelled from the spec: the repository ships no server-side override route —
src/led_dashboard.py (lines 47-59) defines only the client that POSTs to
/api/override_brightness and src/schemas.py declares `BrightnessOverrideIn`, but
no endpoint under src implements it. Following spec section 4.5: validate level
in [0,100] (`InvalidArgument` otherwise), validate that the fixture exists
(`NotFound` otherwise), then append one BrightnessLevel row exactly as the
fan-out step would, timestamped at call time. -/
def override_brightness (db : DB) (led_id level now : Int) : Except ApiError DB :=
  if level < 0 ∨ 100 < level then .error .invalidArgument
  else if !ledExists db led_id then .error .notFound
  else .ok (db.insertBrightness led_id level now)

/-- C1: the Decision Engine `calculate_level` equals the reference piecewise
function for every integer lux and boolean occupancy — 0 when unoccupied,
otherwise 10 for lux ≥ 600, 40 for 400 ≤ lux < 600, 70 for 200 ≤ lux < 400,
100 for lux < 200 (negatives included) — and its result is always one of
0, 10, 40, 70, 100. -/
theorem c1_calculate_level_matches_reference (lux : Int) (occupied : Bool) :
    calculate_level lux occupied = referenceLevel lux occupied ∧
    calculate_level lux occupied ∈ ([0, 10, 40, 70, 100] : List Int) := by
  cases occupied <;>
    simp only [calculate_level, referenceLevel, Bool.not_true, Bool.not_false] <;>
    split_ifs <;> simp_all

/-! ### Helper lemmas about the staged-then-committed fan-out write -/

theorem stagedRows_length (startId ts : Int) (pending : List (Int × Int)) :
    (stagedRows startId ts pending).length = pending.length := by
  induction pending generalizing startId with
  | nil => rfl
  | cons p rest ih => simp [stagedRows, ih]

theorem stagedRows_map_led (startId ts : Int) (pending : List (Int × Int)) :
    (stagedRows startId ts pending).map (fun r => r.led_id) =
      pending.map (fun p => p.1) := by
  induction pending generalizing startId with
  | nil => rfl
  | cons p rest ih => simp [stagedRows, ih]

theorem stagedRows_level (startId ts : Int) (pending : List (Int × Int)) :
    ∀ r ∈ stagedRows startId ts pending, ∃ p ∈ pending, r.level = p.2 := by
  induction pending generalizing startId with
  | nil => intro r hr; cases hr
  | cons p rest ih =>
      intro r hr
      cases hr with
      | head => exact ⟨p, List.mem_cons_self p rest, rfl⟩
      | tail _ h =>
          obtain ⟨q, hq, hlvl⟩ := ih (startId + 1) r h
          exact ⟨q, List.mem_cons_of_mem p hq, hlvl⟩

theorem stagedRows_countP (startId ts : Int) (pending : List (Int × Int))
    (q : Int → Bool) :
    (stagedRows startId ts pending).countP (fun r => q r.led_id) =
      pending.countP (fun p => q p.1) := by
  induction pending generalizing startId with
  | nil => rfl
  | cons p rest ih =>
      simp only [stagedRows, List.countP_cons, ih]

theorem commitPending_eq (pending : List (Int × Int)) (db : DB) (ts : Int) :
    commitPending db pending ts =
      { db with
        brightness_levels :=
          db.brightness_levels ++ stagedRows db.next_brightness_id ts pending,
        next_brightness_id := db.next_brightness_id + pending.length } := by
  induction pending generalizing db with
  | nil => simp [commitPending, stagedRows]
  | cons p rest ih =>
      show commitPending (db.insertBrightness p.1 p.2 ts) rest ts = _
      rw [ih]
      simp [DB.insertBrightness, stagedRows]
      omega

theorem persist_brightness_commit (db : DB) (led_ids : List Int) (level ts : Int) :
    persist_brightness db led_ids level ts true =
      { db with
        brightness_levels := db.brightness_levels ++
          stagedRows db.next_brightness_id ts (led_ids.map (fun lid => (lid, level))),
        next_brightness_id := db.next_brightness_id + led_ids.length } := by
  show commitPending db (led_ids.map (fun lid => (lid, level))) ts = _
  rw [commitPending_eq]
  simp

/-! ### Helper lemmas about fixture resolution -/

theorem mem_ledIdsForSensor (db : DB) (sid lid : Int) :
    lid ∈ ledIdsForSensor db sid ↔
      ((sid, lid) ∈ db.sensor_led_map ∧ ∃ l ∈ db.leds, l.id = lid) := by
  simp only [ledIdsForSensor, List.mem_map, List.mem_filter, List.any_eq_true,
    beq_iff_eq]
  constructor
  · rintro ⟨p, ⟨⟨hp, h1⟩, l, hl, h2⟩, rfl⟩
    subst h1
    exact ⟨by simpa using hp, l, hl, h2⟩
  · rintro ⟨hmem, l, hl, h2⟩
    exact ⟨(sid, lid), ⟨⟨hmem, rfl⟩, l, hl, h2⟩, rfl⟩

theorem nodup_ledIdsForSensor (db : DB) (sid : Int)
    (hmap : db.sensor_led_map.Nodup) : (ledIdsForSensor db sid).Nodup := by
  unfold ledIdsForSensor
  apply List.Nodup.map_on
  · intro x hx y hy hxy
    have hx1 : x.1 = sid := by
      have := (List.mem_filter.mp (List.mem_filter.mp hx).1).2
      simpa using this
    have hy1 : y.1 = sid := by
      have := (List.mem_filter.mp (List.mem_filter.mp hy).1).2
      simpa using this
    exact Prod.ext (hx1.trans hy1.symm) hxy
  · exact (hmap.filter _).filter _

/-! ### Concrete databases used by the witnesses -/

/-- The empty database. -/
def dbEmpty : DB := ⟨[], [], [], [], [], 0, 0⟩

/-- A small database: sensor 1 linked to fixtures 1 and 2; fixture 3 unlinked;
fixture 1 has one old brightness row (level 40 at time 1). -/
def dbSample : DB :=
  ⟨[⟨1, "room"⟩], [⟨1, 900⟩, ⟨2, 1200⟩, ⟨3, 500⟩], [(1, 1), (1, 2)],
   [], [⟨0, 1, 40, 1⟩], 0, 1⟩

/-- C2: fan-out completeness — one ingested reading creates exactly one new
brightness row per distinct fixture linked to its sensor, all rows carrying the
same level, computed by one Decision Engine invocation per reading. -/
theorem c2_fanout_completeness (db : DB) (data : SensorReadingIn) (now : Int)
    (hmap : db.sensor_led_map.Nodup) :
    ∃ reading db1 task newRows,
      ingest_reading db data now true = .ok (reading, db1, task) ∧
      task.level = calculate_level data.lux data.people ∧
      task.led_ids.Nodup ∧
      (∀ lid, lid ∈ task.led_ids ↔
        ((data.sensor_id, lid) ∈ db.sensor_led_map ∧ ∃ l ∈ db.leds, l.id = lid)) ∧
      (runFanout db1 task now true).brightness_levels =
        db1.brightness_levels ++ newRows ∧
      newRows.length = task.led_ids.length ∧
      newRows.map (fun r => r.led_id) = task.led_ids ∧
      (∀ r ∈ newRows, r.level = calculate_level data.lux data.people) := by
  refine ⟨mkReading db data now, db.insertReading data now,
    ⟨ledIdsForSensor (db.insertReading data now) data.sensor_id,
     calculate_level data.lux data.people⟩,
    stagedRows (db.insertReading data now).next_brightness_id now
      ((ledIdsForSensor (db.insertReading data now) data.sensor_id).map
        (fun lid => (lid, calculate_level data.lux data.people))),
    rfl, rfl, ?_, ?_, ?_, ?_, ?_, ?_⟩
  · exact nodup_ledIdsForSensor _ _ hmap
  · intro lid
    exact mem_ledIdsForSensor db data.sensor_id lid
  · rw [show runFanout (db.insertReading data now)
        ⟨ledIdsForSensor (db.insertReading data now) data.sensor_id,
         calculate_level data.lux data.people⟩ now true =
        persist_brightness (db.insertReading data now)
          (ledIdsForSensor (db.insertReading data now) data.sensor_id)
          (calculate_level data.lux data.people) now true from rfl,
      persist_brightness_commit]
  · rw [stagedRows_length, List.length_map]
  · rw [stagedRows_map_led, List.map_map]
    exact List.map_id _
  · intro r hr
    obtain ⟨p, hp, hlvl⟩ := stagedRows_level _ _ _ r hr
    obtain ⟨lid, _, rfl⟩ := List.mem_map.mp hp
    exact hlvl

/-- Witness for C2: the fan-out theorem applied to the sample database, whose
association table is duplicate-free by computation. -/
theorem c2_fanout_completeness_witness :
    dbSample.sensor_led_map.Nodup ∧
    (∃ reading db1 task newRows,
      ingest_reading dbSample ⟨1, 650, true⟩ 5 true = .ok (reading, db1, task) ∧
      task.level = calculate_level 650 true ∧
      task.led_ids.Nodup ∧
      (∀ lid, lid ∈ task.led_ids ↔
        (((1 : Int), lid) ∈ dbSample.sensor_led_map ∧
          ∃ l ∈ dbSample.leds, l.id = lid)) ∧
      (runFanout db1 task 5 true).brightness_levels =
        db1.brightness_levels ++ newRows ∧
      newRows.length = task.led_ids.length ∧
      newRows.map (fun r => r.led_id) = task.led_ids ∧
      (∀ r ∈ newRows, r.level = calculate_level 650 true)) :=
  ⟨by decide, c2_fanout_completeness dbSample ⟨1, 650, true⟩ 5 (by decide)⟩

/-- C10: the fan-out persistence of one reading is all-or-nothing — every staged
row for the reading is made durable by the task's single commit, or, when that
commit fails, none of them is and the database is unchanged; no partial subset of
the staged rows is ever committed. -/
theorem c10_fanout_all_or_nothing (db : DB) (led_ids : List Int)
    (level now : Int) :
    persist_brightness db led_ids level now false = db ∧
    (persist_brightness db led_ids level now true).brightness_levels =
      db.brightness_levels ++ stagedRows db.next_brightness_id now
        (led_ids.map (fun lid => (lid, level))) ∧
    (stagedRows db.next_brightness_id now
        (led_ids.map (fun lid => (lid, level)))).length = led_ids.length ∧
    (∀ commitOk, persist_brightness db led_ids level now commitOk = db ∨
      (persist_brightness db led_ids level now commitOk).brightness_levels =
        db.brightness_levels ++ stagedRows db.next_brightness_id now
          (led_ids.map (fun lid => (lid, level)))) := by
  refine ⟨rfl, ?_, ?_, ?_⟩
  · rw [persist_brightness_commit]
  · rw [stagedRows_length, List.length_map]
  · intro commitOk
    cases commitOk with
    | false => exact Or.inl rfl
    | true => exact Or.inr (by rw [persist_brightness_commit])

/-- Counterexample to C7 as stated: `persist_brightness` does not validate the
level — called with level 150 it raises nothing and writes a brightness row
whose level is 150, outside [0,100]. -/
theorem c7_counterexample :
    (persist_brightness dbEmpty [1] 150 0 true).brightness_levels =
      [⟨0, 1, 150, 0⟩] ∧ (100 : Int) < 150 := by
  constructor
  · rfl
  · decide

/-- C7 amended: the store-level write `persist_brightness` performs no level
validation and cannot fail with InvalidArgument — it writes one row per led id
carrying exactly the level it is given, in range or not; within the repository
its only caller is the fan-out, whose level comes from the Decision Engine and
therefore always lies in [0,100]. -/
theorem c7_no_validation_but_engine_in_range (db : DB) (led_ids : List Int)
    (level now : Int) :
    (persist_brightness db led_ids level now true).brightness_levels =
      db.brightness_levels ++ stagedRows db.next_brightness_id now
        (led_ids.map (fun lid => (lid, level))) ∧
    (∀ r ∈ stagedRows db.next_brightness_id now
        (led_ids.map (fun lid => (lid, level))), r.level = level) ∧
    (∀ lux people, 0 ≤ calculate_level lux people ∧
      calculate_level lux people ≤ 100) := by
  refine ⟨by rw [persist_brightness_commit], ?_, ?_⟩
  · intro r hr
    obtain ⟨p, hp, hlvl⟩ := stagedRows_level _ _ _ r hr
    obtain ⟨lid, _, rfl⟩ := List.mem_map.mp hp
    exact hlvl
  · intro lux people
    cases people <;> simp only [calculate_level] <;> split_ifs <;> simp

/-- The fan-out write touches only the brightness table and its autoincrement
counter: every other component of the database is unchanged. -/
theorem persist_brightness_frame (db : DB) (led_ids : List Int) (level ts : Int)
    (commitOk : Bool) :
    (persist_brightness db led_ids level ts commitOk).sensors = db.sensors ∧
    (persist_brightness db led_ids level ts commitOk).leds = db.leds ∧
    (persist_brightness db led_ids level ts commitOk).sensor_led_map =
      db.sensor_led_map ∧
    (persist_brightness db led_ids level ts commitOk).sensor_readings =
      db.sensor_readings ∧
    (persist_brightness db led_ids level ts commitOk).next_reading_id =
      db.next_reading_id := by
  cases commitOk with
  | false => exact ⟨rfl, rfl, rfl, rfl, rfl⟩
  | true => rw [persist_brightness_commit]; exact ⟨rfl, rfl, rfl, rfl, rfl⟩

/-- Fixture resolution reads only the association table and the led table. -/
theorem ledIdsForSensor_eq_of (db1 db2 : DB)
    (hm : db1.sensor_led_map = db2.sensor_led_map) (hl : db1.leds = db2.leds)
    (sid : Int) : ledIdsForSensor db1 sid = ledIdsForSensor db2 sid := by
  unfold ledIdsForSensor
  rw [hm, hl]

/-- C6: the raw reading is persisted before any fan-out work — a primary-write
failure aborts the whole request with the storage error and leaves the state
unchanged (no partial success); when the primary write succeeds the caller
synchronously receives the persisted reading (with its assigned id and
timestamp) whatever the later fan-out outcome, and the stored reading is never
rolled back by a fan-out failure. -/
theorem c6_primary_write_durability (db : DB) (data : SensorReadingIn)
    (now : Int) (fanoutOk : Bool) :
    handleIngest db data now false fanoutOk = (.error .storageError, db) ∧
    (handleIngest db data now true fanoutOk).1 = .ok (mkReading db data now) ∧
    (handleIngest db data now true fanoutOk).2.sensor_readings =
      db.sensor_readings ++ [mkReading db data now] := by
  refine ⟨rfl, rfl, ?_⟩
  show (persist_brightness (db.insertReading data now) _ _ now
    fanoutOk).sensor_readings = _
  rw [(persist_brightness_frame _ _ _ _ _).2.2.2.1]
  rfl

/-- When the referenced sensor exists, the foreign key is inert and the
enforced model agrees with the abstract ingest model used elsewhere. -/
theorem handleIngestFK_eq_of_sensorExists (db : DB) (data : SensorReadingIn)
    (now : Int) (primaryOk fanoutOk : Bool)
    (hs : sensorExists db data.sensor_id = true) :
    handleIngestFK db data now primaryOk fanoutOk =
      handleIngest db data now primaryOk fanoutOk := by
  unfold handleIngestFK handleIngest ingest_reading_fk ingest_reading
  rw [hs]
  cases primaryOk <;> rfl

/-- Counterexample to C8 as stated: with the declared sensor foreign key
enforced by the backend, ingesting a reading from unknown sensor 99 into the
sample database does not silently succeed — the primary commit fails and the
database is unchanged, so no orphan reading row is stored. -/
theorem c8_counterexample :
    handleIngestFK dbSample ⟨99, 100, true⟩ 7 true true =
      (.error .storageError, dbSample) := by
  rfl

/-- C8 corrected: ingest of a reading whose sensor_id matches no sensor row
never fails with NotFound — the application code performs no sensor-existence
check — but it does not silently store an orphan either: the foreign key on
sensor_readings.sensor_id (src/models.py line 29), enforced by the MySQL
backend of src/database.py, makes the primary commit raise, so the request
fails as a storage-level error and no reading row is stored. -/
theorem c8_orphan_rejected_by_fk (db : DB) (data : SensorReadingIn) (now : Int)
    (primaryOk fanoutOk : Bool)
    (horphan : ∀ s ∈ db.sensors, s.id ≠ data.sensor_id) :
    handleIngestFK db data now primaryOk fanoutOk =
      (.error .storageError, db) ∧
    (handleIngestFK db data now primaryOk fanoutOk).1 ≠ .error .notFound ∧
    (handleIngestFK db data now primaryOk fanoutOk).2.sensor_readings =
      db.sensor_readings := by
  have hs : sensorExists db data.sensor_id = false := by
    simp only [sensorExists, List.any_eq_false, beq_iff_eq]
    exact horphan
  have h : handleIngestFK db data now primaryOk fanoutOk =
      (.error .storageError, db) := by
    unfold handleIngestFK ingest_reading_fk
    rw [hs, Bool.and_false]
    rfl
  refine ⟨h, ?_, ?_⟩
  · rw [h]
    intro hcontra
    exact ApiError.noConfusion (Except.error.inj hcontra)
  · rw [h]

/-- Witness for the corrected C8: unknown sensor 99 against the sample
database — the ingest fails with the storage error, not NotFound, and leaves
the reading table unchanged. -/
theorem c8_orphan_rejected_by_fk_witness :
    (∀ s ∈ dbSample.sensors, s.id ≠ (99 : Int)) ∧
    (handleIngestFK dbSample ⟨99, 100, true⟩ 7 true true =
        (.error .storageError, dbSample) ∧
      (handleIngestFK dbSample ⟨99, 100, true⟩ 7 true true).1 ≠
        .error .notFound ∧
      (handleIngestFK dbSample ⟨99, 100, true⟩ 7 true true).2.sensor_readings =
        dbSample.sensor_readings) :=
  ⟨by decide, c8_orphan_rejected_by_fk dbSample ⟨99, 100, true⟩ 7 true true
    (by decide)⟩

/-- C9: ingestion is not idempotent — two identical ingest calls store two
distinct reading rows, and, for every fixture linked to the sensor, two more
brightness rows (the per-fixture row count grows by exactly two), with no
deduplication. -/
theorem c9_ingest_not_idempotent (db : DB) (data : SensorReadingIn)
    (now1 now2 : Int) (hmap : db.sensor_led_map.Nodup) :
    ∃ r1 r2,
      (handleIngest db data now1 true true).1 = .ok r1 ∧
      (handleIngest (handleIngest db data now1 true true).2 data now2
          true true).1 = .ok r2 ∧
      r1 ≠ r2 ∧
      (handleIngest (handleIngest db data now1 true true).2 data now2
          true true).2.sensor_readings = db.sensor_readings ++ [r1, r2] ∧
      (∀ lid ∈ ledIdsForSensor db data.sensor_id,
        (handleIngest (handleIngest db data now1 true true).2 data now2
            true true).2.brightness_levels.countP (fun r => r.led_id == lid) =
          db.brightness_levels.countP (fun r => r.led_id == lid) + 2) := by
  have hdbA : (handleIngest db data now1 true true).2 =
      { db with
        sensor_readings := db.sensor_readings ++ [mkReading db data now1],
        next_reading_id := db.next_reading_id + 1,
        brightness_levels := db.brightness_levels ++
          stagedRows db.next_brightness_id now1
            ((ledIdsForSensor db data.sensor_id).map
              (fun l => (l, calculate_level data.lux data.people))),
        next_brightness_id := db.next_brightness_id +
          (ledIdsForSensor db data.sensor_id).length } := by
    show persist_brightness _ _ _ now1 true = _
    rw [persist_brightness_commit]
    rfl
  have hfin : (handleIngest (handleIngest db data now1 true true).2 data now2
      true true).2 =
      { db with
        sensor_readings := (db.sensor_readings ++ [mkReading db data now1]) ++
          [⟨db.next_reading_id + 1, data.sensor_id, data.lux, data.people,
            now2⟩],
        next_reading_id := db.next_reading_id + 1 + 1,
        brightness_levels := (db.brightness_levels ++
            stagedRows db.next_brightness_id now1
              ((ledIdsForSensor db data.sensor_id).map
                (fun l => (l, calculate_level data.lux data.people)))) ++
          stagedRows (db.next_brightness_id +
              (ledIdsForSensor db data.sensor_id).length) now2
            ((ledIdsForSensor db data.sensor_id).map
              (fun l => (l, calculate_level data.lux data.people))),
        next_brightness_id := db.next_brightness_id +
          (ledIdsForSensor db data.sensor_id).length +
          (ledIdsForSensor db data.sensor_id).length } := by
    rw [hdbA]
    show persist_brightness _ _ _ now2 true = _
    rw [persist_brightness_commit]
    rfl
  refine ⟨mkReading db data now1,
    ⟨db.next_reading_id + 1, data.sensor_id, data.lux, data.people, now2⟩,
    rfl, ?_, ?_, ?_, ?_⟩
  · rw [hdbA]
    rfl
  · intro h
    have hid := congrArg SensorReading.id h
    simp only [mkReading] at hid
    omega
  · rw [hfin]
    simp
  · intro lid hmem
    rw [hfin]
    have h1 := stagedRows_countP db.next_brightness_id now1
      ((ledIdsForSensor db data.sensor_id).map
        (fun l => (l, calculate_level data.lux data.people)))
      (fun x => x == lid)
    have h2 := stagedRows_countP
      (db.next_brightness_id + (ledIdsForSensor db data.sensor_id).length) now2
      ((ledIdsForSensor db data.sensor_id).map
        (fun l => (l, calculate_level data.lux data.people)))
      (fun x => x == lid)
    have hcnt : List.countP (fun p => p.1 == lid)
        ((ledIdsForSensor db data.sensor_id).map
          (fun l => (l, calculate_level data.lux data.people))) = 1 := by
      have h3 := List.countP_map (fun p : Int × Int => p.1 == lid)
        (fun l : Int => (l, calculate_level data.lux data.people))
        (ledIdsForSensor db data.sensor_id)
      rw [h3]
      show (ledIdsForSensor db data.sensor_id).countP (fun l => l == lid) = 1
      exact List.count_eq_one_of_mem (nodup_ledIdsForSensor db _ hmap) hmem
    simp only [List.countP_append, h1, h2, hcnt]

/-- Witness for C9: two identical ingests into the sample database. -/
theorem c9_ingest_not_idempotent_witness :
    dbSample.sensor_led_map.Nodup ∧
    (∃ r1 r2,
      (handleIngest dbSample ⟨1, 650, true⟩ 3 true true).1 = .ok r1 ∧
      (handleIngest (handleIngest dbSample ⟨1, 650, true⟩ 3 true true).2
          ⟨1, 650, true⟩ 4 true true).1 = .ok r2 ∧
      r1 ≠ r2 ∧
      (handleIngest (handleIngest dbSample ⟨1, 650, true⟩ 3 true true).2
          ⟨1, 650, true⟩ 4 true true).2.sensor_readings =
        dbSample.sensor_readings ++ [r1, r2] ∧
      (∀ lid ∈ ledIdsForSensor dbSample (1 : Int),
        (handleIngest (handleIngest dbSample ⟨1, 650, true⟩ 3 true true).2
            ⟨1, 650, true⟩ 4 true true).2.brightness_levels.countP
          (fun r => r.led_id == lid) =
          dbSample.brightness_levels.countP (fun r => r.led_id == lid) + 2)) :=
  ⟨by decide, c9_ingest_not_idempotent dbSample ⟨1, 650, true⟩ 3 4 (by decide)⟩

/-! ### Helper lemmas about the sorted history window -/

theorem mergeSort_isEmpty_iff (l : List BrightnessLevel)
    (le : BrightnessLevel → BrightnessLevel → Bool) :
    (l.mergeSort le).isEmpty = true ↔ l = [] := by
  rw [List.isEmpty_iff]
  constructor
  · intro h
    have hlen := congrArg List.length h
    rw [List.length_mergeSort] at hlen
    exact List.eq_nil_of_length_eq_zero hlen
  · intro h
    subst h
    exact List.mergeSort_nil

theorem mem_windowRows (db : DB) (led_id cutoff : Int) (r : BrightnessLevel) :
    r ∈ windowRows db led_id cutoff ↔
      (r ∈ db.brightness_levels ∧ r.led_id = led_id ∧ cutoff ≤ r.ts) := by
  simp [windowRows, List.mem_filter, and_assoc]

/-- C3: with hours in [1,168], whenever the history query answers, the answer is
exactly the fixture's brightness rows with ts at least the cutoff (cutoff = now
minus the requested hours; the boundary row with ts equal to the cutoff is
included, rows strictly before it are excluded), ordered ascending by ts; and
for a registered fixture the query does answer. -/
theorem c3_history_window (db : DB) (led_id hours now : Int)
    (h1 : 1 ≤ hours) (h2 : hours ≤ 168) :
    (∀ rows, led_history db led_id hours now = .ok rows →
      ((∀ r, r ∈ rows ↔ (r ∈ db.brightness_levels ∧ r.led_id = led_id ∧
          now - 3600 * hours ≤ r.ts)) ∧
        rows.Pairwise (fun a b => a.ts ≤ b.ts))) ∧
    (ledExists db led_id = true →
      ∃ rows, led_history db led_id hours now = .ok rows) := by
  have hbound : ¬(hours < 1 ∨ 168 < hours) := by omega
  constructor
  · intro rows hok
    simp only [led_history, if_neg hbound] at hok
    split at hok
    · cases hok
    · cases hok
      constructor
      · intro r
        rw [List.mem_mergeSort, mem_windowRows]
      · have hsorted := @List.sorted_mergeSort BrightnessLevel
          (fun a b : BrightnessLevel => decide (a.ts ≤ b.ts))
          (fun a b c hab hbc => by
            simp only [decide_eq_true_eq] at *
            omega)
          (fun a b => by
            simp only [Bool.or_eq_true, decide_eq_true_eq]
            omega)
          (windowRows db led_id (now - 3600 * hours))
        exact hsorted.imp (fun h => by simpa using h)
  · intro hex
    refine ⟨(windowRows db led_id (now - 3600 * hours)).mergeSort
      (fun a b => decide (a.ts ≤ b.ts)), ?_⟩
    simp only [led_history, if_neg hbound, hex, Bool.not_true, Bool.and_false,
      Bool.false_eq_true, if_false]

/-- C4: with hours in [1,168], the history query fails with NotFound exactly
when the window is empty and no led row with the queried id exists; a
registered fixture with an empty window gets the empty sequence, not an error. -/
theorem c4_history_notfound_vs_empty (db : DB) (led_id hours now : Int)
    (h1 : 1 ≤ hours) (h2 : hours ≤ 168) :
    (led_history db led_id hours now = .error .notFound ↔
      (windowRows db led_id (now - 3600 * hours) = [] ∧
        ledExists db led_id = false)) ∧
    (ledExists db led_id = true →
      windowRows db led_id (now - 3600 * hours) = [] →
      led_history db led_id hours now = .ok []) := by
  have hbound : ¬(hours < 1 ∨ 168 < hours) := by omega
  constructor
  · simp only [led_history, if_neg hbound]
    split
    · next hcond =>
        rw [Bool.and_eq_true, Bool.not_eq_true', mergeSort_isEmpty_iff] at hcond
        simp only [hcond, and_self, iff_true_intro hcond.1,
          iff_true_intro hcond.2, true_and]
    · next hcond =>
        constructor
        · intro h
          cases h
        · intro ⟨hw, hex⟩
          exact absurd (by rw [Bool.and_eq_true, Bool.not_eq_true',
            mergeSort_isEmpty_iff]; exact ⟨hw, hex⟩) hcond
  · intro hex hw
    simp only [led_history, if_neg hbound, hw, hex]
    simp [List.mergeSort_nil]

/-- Witness for C3: the history-window theorem applied at hours = 24 on the
sample database. -/
theorem c3_history_window_witness :
    ((1 : Int) ≤ 24 ∧ (24 : Int) ≤ 168) ∧
    ((∀ rows, led_history dbSample 1 24 100 = .ok rows →
      ((∀ r, r ∈ rows ↔ (r ∈ dbSample.brightness_levels ∧ r.led_id = 1 ∧
          (100 : Int) - 3600 * 24 ≤ r.ts)) ∧
        rows.Pairwise (fun a b => a.ts ≤ b.ts))) ∧
    (ledExists dbSample 1 = true →
      ∃ rows, led_history dbSample 1 24 100 = .ok rows)) :=
  ⟨⟨by decide, by decide⟩,
   c3_history_window dbSample 1 24 100 (by decide) (by decide)⟩

/-- Witness for C4: fixture 3 exists in the sample database but has no rows in
the window, and the NotFound characterization applied at hours = 24. -/
theorem c4_history_notfound_vs_empty_witness :
    ((1 : Int) ≤ 24 ∧ (24 : Int) ≤ 168) ∧
    ((led_history dbSample 3 24 0 = .error .notFound ↔
      (windowRows dbSample 3 ((0 : Int) - 3600 * 24) = [] ∧
        ledExists dbSample 3 = false)) ∧
    (ledExists dbSample 3 = true →
      windowRows dbSample 3 ((0 : Int) - 3600 * 24) = [] →
      led_history dbSample 3 24 0 = .ok [])) :=
  ⟨⟨by decide, by decide⟩,
   c4_history_notfound_vs_empty dbSample 3 24 0 (by decide) (by decide)⟩

/-! ### Helper lemmas about the latest-brightness fold -/

theorem foldl_pickLater_cases (l : List BrightnessLevel) :
    ∀ acc, l.foldl pickLater acc = acc ∨
      ∃ r ∈ l, l.foldl pickLater acc = some r := by
  induction l with
  | nil => intro acc; exact Or.inl rfl
  | cons x xs ih =>
      intro acc
      rcases ih (pickLater acc x) with h | ⟨r, hr, h⟩
      · rw [List.foldl_cons, h]
        cases acc with
        | none => exact Or.inr ⟨x, List.mem_cons_self x xs, rfl⟩
        | some b =>
            by_cases hb : b.ts < x.ts
            · exact Or.inr ⟨x, List.mem_cons_self x xs, by simp [pickLater, hb]⟩
            · exact Or.inl (by simp [pickLater, hb])
      · exact Or.inr ⟨r, List.mem_cons_of_mem x hr,
          by rw [List.foldl_cons]; exact h⟩

theorem foldl_pickLater_strict_latest (l : List BrightnessLevel)
    (x : BrightnessLevel) (hall : ∀ r ∈ l, r.ts < x.ts) :
    (l ++ [x]).foldl pickLater none = some x := by
  rw [List.foldl_append]
  rcases foldl_pickLater_cases l none with h | ⟨r, hr, h⟩
  · rw [h]
    rfl
  · rw [h]
    show pickLater (some r) x = some x
    simp [pickLater, hall r hr]

/-- C5 (spec-modelled override route): the override fails with InvalidArgument
for every level outside [0,100]; fails with NotFound when the fixture does not
exist; and otherwise appends exactly one brightness row timestamped at call
time, after which latestBrightness returns the overridden level (assuming the
call time is after every stored timestamp of the fixture). -/
theorem c5_override (db : DB) (led_id level now : Int) :
    ((level < 0 ∨ 100 < level) →
      override_brightness db led_id level now = .error .invalidArgument) ∧
    (0 ≤ level → level ≤ 100 → ledExists db led_id = false →
      override_brightness db led_id level now = .error .notFound) ∧
    (0 ≤ level → level ≤ 100 → ledExists db led_id = true →
      (∀ r ∈ db.brightness_levels, r.led_id = led_id → r.ts < now) →
      override_brightness db led_id level now =
        .ok (db.insertBrightness led_id level now) ∧
      (db.insertBrightness led_id level now).brightness_levels =
        db.brightness_levels ++
          [⟨db.next_brightness_id, led_id, level, now⟩] ∧
      latestBrightness (db.insertBrightness led_id level now) led_id =
        some level) := by
  refine ⟨?_, ?_, ?_⟩
  · intro h
    simp only [override_brightness, if_pos h]
  · intro h0 h100 hex
    simp only [override_brightness, if_neg (by omega : ¬(level < 0 ∨ 100 < level)),
      hex, Bool.not_false, if_pos]
  · intro h0 h100 hex hts
    refine ⟨?_, rfl, ?_⟩
    · simp only [override_brightness,
        if_neg (by omega : ¬(level < 0 ∨ 100 < level)), hex, Bool.not_true,
        Bool.false_eq_true, if_false]
    · unfold latestBrightness
      show (((db.brightness_levels ++
        [(⟨db.next_brightness_id, led_id, level, now⟩ : BrightnessLevel)]).filter
          (fun r : BrightnessLevel => r.led_id == led_id)).foldl
            pickLater none).map
              (fun r : BrightnessLevel => r.level) = some level
      rw [List.filter_append]
      have hone : ([(⟨db.next_brightness_id, led_id, level, now⟩ :
          BrightnessLevel)]).filter (fun r => r.led_id == led_id) =
          [⟨db.next_brightness_id, led_id, level, now⟩] := by
        simp
      rw [hone, foldl_pickLater_strict_latest]
      · rfl
      · intro r hr
        rw [List.mem_filter, beq_iff_eq] at hr
        exact hts r hr.1 hr.2

/-- Witness for C5: level 150 is rejected, a missing fixture 99 yields NotFound,
and overriding fixture 1 of the sample database to 75 at time 9 makes
latestBrightness report 75. -/
theorem c5_override_witness :
    override_brightness dbSample 1 150 9 = .error .invalidArgument ∧
    override_brightness dbSample 99 75 9 = .error .notFound ∧
    latestBrightness (dbSample.insertBrightness 1 75 9) 1 = some 75 :=
  ⟨(c5_override dbSample 1 150 9).1 (by decide),
   (c5_override dbSample 99 75 9).2.1 (by decide) (by decide) (by decide),
   ((c5_override dbSample 1 75 9).2.2 (by decide) (by decide) (by decide)
      (by decide)).2.2⟩

/-- Witness for C1: the Decision Engine at the boundary value lux = 599. -/
theorem c1_calculate_level_matches_reference_witness :
    calculate_level 599 true = referenceLevel 599 true ∧
    calculate_level 599 true ∈ ([0, 10, 40, 70, 100] : List Int) :=
  c1_calculate_level_matches_reference 599 true

/-- Witness for C6: one ingest into the sample database whose fan-out commit
fails; the reading is stored anyway and the response is unchanged. -/
theorem c6_primary_write_durability_witness :
    handleIngest dbSample ⟨1, 650, true⟩ 5 false false =
      (.error .storageError, dbSample) ∧
    (handleIngest dbSample ⟨1, 650, true⟩ 5 true false).1 =
      .ok (mkReading dbSample ⟨1, 650, true⟩ 5) ∧
    (handleIngest dbSample ⟨1, 650, true⟩ 5 true false).2.sensor_readings =
      dbSample.sensor_readings ++ [mkReading dbSample ⟨1, 650, true⟩ 5] :=
  c6_primary_write_durability dbSample ⟨1, 650, true⟩ 5 false

/-- Witness for the amended C7: a concrete unvalidated write into the sample
database, and the Decision Engine range fact. -/
theorem c7_no_validation_but_engine_in_range_witness :
    (persist_brightness dbSample [1, 2] 40 6 true).brightness_levels =
      dbSample.brightness_levels ++ stagedRows dbSample.next_brightness_id 6
        (([1, 2] : List Int).map (fun lid => (lid, (40 : Int)))) ∧
    (∀ r ∈ stagedRows dbSample.next_brightness_id 6
        (([1, 2] : List Int).map (fun lid => (lid, (40 : Int)))),
      r.level = 40) ∧
    (∀ lux people, 0 ≤ calculate_level lux people ∧
      calculate_level lux people ≤ 100) :=
  c7_no_validation_but_engine_in_range dbSample [1, 2] 40 6

/-- Witness for C10: the all-or-nothing fan-out commit on the sample database. -/
theorem c10_fanout_all_or_nothing_witness :
    persist_brightness dbSample [1, 2] 10 8 false = dbSample ∧
    (persist_brightness dbSample [1, 2] 10 8 true).brightness_levels =
      dbSample.brightness_levels ++ stagedRows dbSample.next_brightness_id 8
        (([1, 2] : List Int).map (fun lid => (lid, (10 : Int)))) ∧
    (stagedRows dbSample.next_brightness_id 8
        (([1, 2] : List Int).map (fun lid => (lid, (10 : Int))))).length =
      ([1, 2] : List Int).length ∧
    (∀ commitOk, persist_brightness dbSample [1, 2] 10 8 commitOk = dbSample ∨
      (persist_brightness dbSample [1, 2] 10 8 commitOk).brightness_levels =
        dbSample.brightness_levels ++ stagedRows dbSample.next_brightness_id 8
          (([1, 2] : List Int).map (fun lid => (lid, (10 : Int))))) :=
  c10_fanout_all_or_nothing dbSample [1, 2] 10 8
